import Mathlib

/-!
Verification of the CodeComprehender repository (Java source commenter).

This file gives a shallow embedding, in Lean, of the parts of the Python
code base that the claims of the specification concern:

* `src/src/commenter/comment_generator.py` — `CommentTask`, `_plan_comments`,
  `_format_comment`, `_insert_comments` and their string helpers;
* `src/models/project_structure.py` — `DependencyGraph.add_dependency`,
  `ProjectStructure.build_dependency_graph`, `_resolve_class_name`,
  `find_circular_dependencies`;
* `src/src/utils/config.py` — `Config.__post_init__`, `_load_from_env`,
  `_validate_settings`;
* `src/src/parser/java_parser.py` — the dataclasses and `JavaParser.parse_file`.

Python strings are modelled as Lean `String`, but every string operation the
code uses (`strip`, `rstrip`, `startswith`, `split`, `join`, `lower`,
`title`) is re-implemented over `String.data` (a `List Char`) so that all
definitions evaluate by kernel reduction.  Python `int` is `Int`, Python
`float` is a dedicated `PyFloat` type (rationals plus `nan`/`inf`/`-inf`,
with IEEE comparison semantics: every comparison against `nan` is false).
Python `dict`/`set` are association lists / duplicate-free lists in insertion
order; fallible code returns `Except`/`Option`.
-/

/-! ## Python string primitives -/

/-- Split a character list at every occurrence of `c` (Python `str.split(sep)`
for a one-character separator): `splitOnChar c "a\nb\n" = ["a","b",""]`. -/
def splitOnChar (c : Char) : List Char → List (List Char)
  | [] => [[]]
  | x :: xs =>
    match splitOnChar c xs with
    | [] => [[x]]
    | h :: t => if x = c then [] :: h :: t else (x :: h) :: t

/-- Python `s.split('\n')`. -/
def pySplitLines (s : String) : List String :=
  (splitOnChar '\n' s.data).map List.asString

/-- Python `sep.join(parts)`. -/
def pyJoin (sep : String) : List String → String
  | [] => ""
  | [x] => x
  | x :: xs => x ++ sep ++ pyJoin sep xs

/-- Python `s.rstrip()`: drop trailing whitespace. -/
def pyRstrip (s : String) : String :=
  (s.data.reverse.dropWhile Char.isWhitespace).reverse.asString

/-- Python `s.strip()`: drop leading and trailing whitespace. -/
def pyStrip (s : String) : String :=
  (((s.data.dropWhile Char.isWhitespace).reverse.dropWhile Char.isWhitespace).reverse).asString

/-- Python `s.startswith(p)`. -/
def pyStartsWith (s p : String) : Bool := p.data.isPrefixOf s.data

/-- Python `s.lower()` (ASCII, which is all the code compares). -/
def pyLower (s : String) : String := (s.data.map Char.toLower).asString

/-- Helper for `pyTitle`: tracks whether the previous character was a letter. -/
def pyTitleGo : Bool → List Char → List Char
  | _, [] => []
  | prevAlpha, c :: rest =>
    if c.isAlpha then
      (if prevAlpha then c.toLower else c.toUpper) :: pyTitleGo true rest
    else
      c :: pyTitleGo false rest

/-- Python `s.title()`: first letter of every word upper-cased, the rest
lower-cased. -/
def pyTitle (s : String) : String := (pyTitleGo false s.data).asString

/-- Python `str(b)` for a bool: `"True"` / `"False"`. -/
def pyBoolStr (b : Bool) : String := if b then "True" else "False"

/-- Leading whitespace of a string (the `^(\s*)` regex match in
`_get_line_indent`). -/
def leadingWhitespace (s : String) : String :=
  (s.data.takeWhile Char.isWhitespace).asString

/-! ## `CommentTask` and `_insert_comments`
(`src/src/commenter/comment_generator.py`) -/

/-- The `CommentTask` dataclass: a single comment-generation task.
`element_type` is one of `"file"`, `"class"`, `"method"`, `"field"`. -/
structure CommentTask where
  element_type : String
  prompt : String
  insert_line : Int
  indent : String
  is_inline : Bool
  max_tokens : Int
deriving DecidableEq, Repr

/-- Effective index for a Python slice assignment `xs[i:i] = new` on a list of
length `len`: a negative index counts from the end clamped at 0, a too-large
index clamps at `len`. -/
def sliceInsertIndex (len : Nat) (i : Int) : Nat :=
  if i < 0 then ((len : Int) + i).toNat else min i.toNat len

/-- Python `xs[i:i] = new`: splice `new` in before the effective index. -/
def sliceInsert (lines : List String) (i : Int) (new : List String) : List String :=
  let k := sliceInsertIndex lines.length i
  lines.take k ++ new ++ lines.drop k

/-- One iteration of the loop in `_insert_comments`: apply a single completed
`(task, formatted_comment)` pair to the current line array.  An inline task
appends to the end of the addressed line when the index is in range (and is a
silent no-op otherwise); a block task splices the indented comment lines in
before its index using Python slice-assignment semantics. -/
def applyTask (lines : List String) (p : CommentTask × String) : List String :=
  if p.1.is_inline then
    if 0 ≤ p.1.insert_line ∧ p.1.insert_line < (lines.length : Int) then
      lines.set p.1.insert_line.toNat
        (pyRstrip (lines.getD p.1.insert_line.toNat "") ++ "  " ++ p.2)
    else
      lines
  else
    sliceInsert lines p.1.insert_line ((pySplitLines p.2).map (fun l => p.1.indent ++ l))

/-- The sort key used by `_insert_comments`:
`completed_tasks.sort(key=lambda x: x[0].insert_line, reverse=True)`.
`taskGE a b` holds when `a` may come before `b` in descending order. -/
def taskGE (a b : CommentTask × String) : Prop :=
  b.1.insert_line ≤ a.1.insert_line

instance : DecidableRel taskGE := fun a b =>
  inferInstanceAs (Decidable (b.1.insert_line ≤ a.1.insert_line))

instance : IsTotal (CommentTask × String) taskGE :=
  ⟨fun a b => Int.le_total b.1.insert_line a.1.insert_line⟩

instance : IsTrans (CommentTask × String) taskGE :=
  ⟨fun _ _ _ h h' => le_trans h' h⟩

/-- The strict version of the sort key: strictly larger insert line. -/
def taskGT (a b : CommentTask × String) : Prop :=
  b.1.insert_line < a.1.insert_line

instance : IsAntisymm (CommentTask × String) taskGT :=
  ⟨fun _ _ h h' => absurd (lt_trans h h') (lt_irrefl _)⟩

/-- The Python `list.sort` is a stable sort; `List.insertionSort` with the
descending-key relation is the same stable descending sort (ties keep their
arrival order). -/
def sortCompleted (ps : List (CommentTask × String)) : List (CommentTask × String) :=
  ps.insertionSort taskGE

/-- The line array produced by `_insert_comments` before the final
`'\n'.join`. -/
def insertCommentsLines (source_lines : List String)
    (completed_tasks : List (CommentTask × String)) : List String :=
  (sortCompleted completed_tasks).foldl applyTask source_lines

/-- Model of `_insert_comments`: sort the completed pairs by descending original
insert line (stable), apply each to a copy of the source lines, and join. -/
def insertComments (source_lines : List String)
    (completed_tasks : List (CommentTask × String)) : String :=
  pyJoin "\n" (insertCommentsLines source_lines completed_tasks)

/-- Number of lines a completed pair adds to the file: block tasks add one
line per line of their formatted comment, inline tasks add none. -/
def blockCommentLineCount (p : CommentTask × String) : Nat :=
  if p.1.is_inline then 0 else (pySplitLines p.2).length

/-! ## `_format_comment` (`src/src/commenter/comment_generator.py`) -/

/-- Model of `_format_comment`: wrap the raw model answer according to the element
kind.  File/class/method answers are wrapped in a `/** ... */` block
unconditionally; a field answer is prefixed with `// ` unless it already
starts with `//`; anything else falls back to a `// ` prefix. -/
def formatComment (task : CommentTask) (raw_comment : String) : String :=
  if task.element_type = "file" then
    "/**\n * " ++ raw_comment ++ "\n * \n * @author CodeComprehender\n */"
  else if task.element_type = "class" then
    "/**\n * " ++ raw_comment ++ "\n * \n * @author CodeComprehender\n */"
  else if task.element_type = "method" then
    "/**\n * " ++ raw_comment ++ "\n */"
  else if task.element_type = "field" then
    if pyStartsWith raw_comment "//" then raw_comment else "// " ++ raw_comment
  else
    "// " ++ raw_comment

/-! ## `_plan_comments` (`src/src/commenter/comment_generator.py`)

`_plan_comments` duck-types its `parsed_file` argument: it reads attributes
(`has_javadoc`, `is_constructor`, `package`, ...) that the concrete
`ParsedFile`/`ParsedClass` dataclasses of `java_parser.py` do not all carry.
The structures below model exactly the shape `_plan_comments` and its prompt
builders read, one field per attribute accessed (with
`getattr` with a `False` default modelled as a boolean field).  Inner
classes are never accessed by the planner and are omitted. -/

/-- A field as read by the planner (`field.name`, `field.type`,
`field.visibility`, `field.is_static`, `field.is_final`, `field.has_javadoc`,
`field.line_number`). -/
structure PlannerField where
  name : String
  type : String
  visibility : String
  is_static : Bool
  is_final : Bool
  has_javadoc : Bool
  line_number : Int
deriving DecidableEq, Repr

/-- A method as read by the planner. `parameters` is the ordered list of
`(type, name)` pairs. -/
structure PlannerMethod where
  name : String
  visibility : String
  return_type : String
  parameters : List (String × String)
  throws : List String
  is_static : Bool
  is_constructor : Bool
  has_javadoc : Bool
  line_number : Int
deriving DecidableEq, Repr

/-- A class/interface/enum as read by the planner.  `extendsName` models the
`extends` attribute (an optional type name; Python treats `None` and `""` as
falsy). -/
structure PlannerClass where
  name : String
  type : String
  visibility : String
  extendsName : Option String
  implements : List String
  methods : List PlannerMethod
  fields : List PlannerField
  has_javadoc : Bool
  line_number : Int
deriving DecidableEq, Repr

/-- A parsed file as read by the planner (`parsed_file.package`,
`parsed_file.imports`, `parsed_file.classes`); an absent/`None` package is
the empty string (both are falsy in Python). -/
structure PlannerFile where
  package : String
  imports : List String
  classes : List PlannerClass
deriving DecidableEq, Repr

/-- The configuration attributes `_plan_comments` consults
(`include_file_comments`, `use_javadoc`, `include_class_comments`,
`include_method_comments`, `add_inline_comments`); `getattr(..., True)`
defaults are a concern of the caller and are simply fields here. -/
structure PlanConfig where
  include_file_comments : Bool
  use_javadoc : Bool
  include_class_comments : Bool
  include_method_comments : Bool
  add_inline_comments : Bool
deriving DecidableEq, Repr

/-- Python truthiness of an optional string: `None` and `""` are falsy. -/
def optStrTruthy : Option String → Bool
  | none => false
  | some s => s ≠ ""

/-- Model of `_has_file_comment` inner loop over the first lines. -/
def hasFileCommentGo : List String → Bool
  | [] => false
  | l :: rest =>
    let stripped := pyStrip l
    if pyStartsWith stripped "/**" || pyStartsWith stripped "/*" then true
    else if stripped ≠ "" && !(pyStartsWith stripped "//") then false
    else hasFileCommentGo rest

/-- Model of `_has_file_comment`: scan the first 10 lines for a block-comment opener
before any non-comment code. -/
def hasFileComment (source_lines : List String) : Bool :=
  hasFileCommentGo (source_lines.take 10)

/-- Model of `_find_file_comment_location` inner loop, carrying the enumeration
index. -/
def findFileCommentLocationGo : Int → List String → Int
  | _, [] => 0
  | i, l :: rest =>
    let stripped := pyStrip l
    if pyStartsWith stripped "package " then i + 1
    else if stripped ≠ "" && !(pyStartsWith stripped "//") then i
    else findFileCommentLocationGo (i + 1) rest

/-- Model of `_find_file_comment_location`: right after the package line, else at the
first real code line, else line 0. -/
def findFileCommentLocation (source_lines : List String) : Int :=
  findFileCommentLocationGo 0 source_lines

/-- Model of `_get_line_indent`: leading whitespace of line `line_num`, or `""` when
the index is out of range. -/
def getLineIndent (source_lines : List String) (line_num : Int) : String :=
  if 0 ≤ line_num ∧ line_num < (source_lines.length : Int) then
    leadingWhitespace (source_lines.getD line_num.toNat "")
  else ""

/-- Model of `_is_obvious_field`: boilerplate field names that are skipped. -/
def isObviousField (fld : PlannerField) : Bool :=
  ["id", "name", "value", "count", "size", "length",
   "index", "flag", "status", "result", "data", "item"].contains (pyLower fld.name)

/-- Model of `_build_file_prompt`. -/
def buildFilePrompt (f : PlannerFile) (fileName : String) : String :=
  let classNames := (f.classes.take 3).map PlannerClass.name
  let classSummary :=
    pyJoin ", " classNames ++ (if f.classes.length > 3 then "..." else "")
  "Write a brief description for this Java file:\n\nFile: " ++ fileName ++
    "\nPackage: " ++ (if f.package = "" then "default package" else f.package) ++
    "\nMain classes: " ++ classSummary ++
    "\nTotal imports: " ++ toString f.imports.length ++
    "\n\nExplain what this file contains and its main purpose in 1-2 sentences.\nReturn only the description text, no formatting."

/-- Model of `_build_class_prompt`. -/
def buildClassPrompt (cls : PlannerClass) (f : PlannerFile) : String :=
  let inh1 :=
    if optStrTruthy cls.extendsName then " extends " ++ cls.extendsName.getD "" else ""
  let implList :=
    pyJoin ", " (cls.implements.take 2) ++
      (if cls.implements.length > 2 then "..." else "")
  let inh2 := if cls.implements ≠ [] then " implements " ++ implList else ""
  "Write a brief description for this Java " ++ cls.type ++ ":\n\n" ++
    pyTitle cls.type ++ ": " ++ cls.name ++ inh1 ++ inh2 ++
    "\nPackage: " ++ (if f.package = "" then "default" else f.package) ++
    "\nMethods: " ++ toString cls.methods.length ++
    "\nFields: " ++ toString cls.fields.length ++
    "\nVisibility: " ++ cls.visibility ++
    "\n\nExplain the purpose and main responsibilities of this " ++ cls.type ++
    " in 1-2 sentences.\nReturn only the description text, no formatting."

/-- Model of `_build_method_prompt`. -/
def buildMethodPrompt (m : PlannerMethod) (cls : PlannerClass) : String :=
  let params := pyJoin ", " (m.parameters.map (fun p => p.1 ++ " " ++ p.2))
  let signature :=
    m.visibility ++ " " ++ m.return_type ++ " " ++ m.name ++ "(" ++ params ++ ")"
  "Write a brief description for this Java method:\n\nMethod: " ++ signature ++
    "\nClass: " ++ cls.name ++
    "\nStatic: " ++ pyBoolStr m.is_static ++
    "\nParameters: " ++ toString m.parameters.length ++
    "\nThrows: " ++ (if m.throws ≠ [] then pyJoin ", " m.throws else "none") ++
    "\n\nExplain what this method does in 1-2 sentences.\nReturn only the description text, no formatting."

/-- Model of `_build_field_prompt`. -/
def buildFieldPrompt (fld : PlannerField) (cls : PlannerClass) : String :=
  "Write a very brief description for this Java field:\n\nField: " ++
    fld.visibility ++ " " ++ fld.type ++ " " ++ fld.name ++
    "\nClass: " ++ cls.name ++
    "\nStatic: " ++ pyBoolStr fld.is_static ++ ", Final: " ++ pyBoolStr fld.is_final ++
    "\n\nExplain what this field represents in 3-5 words.\nReturn only the description text, no formatting."

/-- The method branch of the class loop in `_plan_comments`: a task is
queued for a non-constructor method without documentation. -/
def methodTask (cls : PlannerClass) (source_lines : List String)
    (m : PlannerMethod) : Option CommentTask :=
  if !m.is_constructor && !m.has_javadoc then
    some ⟨"method", buildMethodPrompt m cls, m.line_number - 1,
      getLineIndent source_lines (m.line_number - 1), false, 180⟩
  else none

/-- The field branch of the class loop in `_plan_comments`: a task is queued
for a field that is not a static-final constant, has no documentation and is
not an obvious/boilerplate name.  Field tasks are inline, at the line number of the
field itself. -/
def fieldTask (cls : PlannerClass) (fld : PlannerField) : Option CommentTask :=
  if !(fld.is_static && fld.is_final) && !fld.has_javadoc && !isObviousField fld then
    some ⟨"field", buildFieldPrompt fld cls, fld.line_number, "", true, 50⟩
  else none

/-- The body of the per-class loop in `_plan_comments`.  Note that in the
source the method and field loops are nested inside the
`if not cls.has_javadoc and ...` branch, so a class that gets no class task
contributes no method or field tasks either. -/
def classTasks (cfg : PlanConfig) (f : PlannerFile) (source_lines : List String)
    (cls : PlannerClass) : List CommentTask :=
  if !cls.has_javadoc && cfg.use_javadoc && cfg.include_class_comments then
    ⟨"class", buildClassPrompt cls f, cls.line_number - 1,
        getLineIndent source_lines (cls.line_number - 1), false, 200⟩ ::
      ((if cfg.include_method_comments then
          cls.methods.filterMap (methodTask cls source_lines) else []) ++
        (if cfg.add_inline_comments then
          cls.fields.filterMap (fieldTask cls) else []))
  else []

/-- Model of `_plan_comments`: the file-level task (when file comments are enabled and
no existing top-of-file comment is detected) followed by the tasks of each
class in order. -/
def planComments (cfg : PlanConfig) (f : PlannerFile) (source_lines : List String)
    (fileName : String) : List CommentTask :=
  (if cfg.include_file_comments && !hasFileComment source_lines then
    [⟨"file", buildFilePrompt f fileName, findFileCommentLocation source_lines,
      "", false, 150⟩]
  else []) ++
    f.classes.flatMap (classTasks cfg f source_lines)

/-! ## `DependencyGraph` and `ProjectStructure`
(`src/models/project_structure.py`)

Python `Dict[str, Set[str]]` is modelled as an association list
`List (String × List String)` in insertion order with unique keys (dict
semantics), whose values are duplicate-free lists (set semantics: only
membership and iteration are used). -/

/-- Dictionary lookup on an association list (first matching key). -/
def lookupKey (m : List (String × List String)) (k : String) : Option (List String) :=
  match m with
  | [] => none
  | (k', v) :: rest => if k' = k then some v else lookupKey rest k

/-- Python `set.add`: append the element unless already present. -/
def setAdd (s : List String) (x : String) : List String :=
  if x ∈ s then s else s ++ [x]

/-- The combined effect of
`if k not in d: d[k] = set()` followed by `d[k].add(v)`. -/
def dictAddToSet (m : List (String × List String)) (k v : String) :
    List (String × List String) :=
  match m with
  | [] => [(k, [v])]
  | (k', s) :: rest =>
    if k' = k then (k', setAdd s v) :: rest else (k', s) :: dictAddToSet rest k v

/-- The `DependencyGraph` dataclass: forward and reverse adjacency maps. -/
structure DependencyGraph where
  edges : List (String × List String)
  reverse_edges : List (String × List String)
deriving DecidableEq, Repr

/-- A fresh `DependencyGraph()`. -/
def emptyDependencyGraph : DependencyGraph := ⟨[], []⟩

/-- Model of `DependencyGraph.add_dependency`: record the edge in the forward map and
its mirror in the reverse map. -/
def addDependency (g : DependencyGraph) (from_class to_class : String) :
    DependencyGraph :=
  ⟨dictAddToSet g.edges from_class to_class,
   dictAddToSet g.reverse_edges to_class from_class⟩

/-- Model of `DependencyGraph.get_dependencies`: `edges.get(class_name, set())`. -/
def getDependencies (g : DependencyGraph) (class_name : String) : List String :=
  (lookupKey g.edges class_name).getD []

/-- Membership of edge `a → b` in an adjacency map, together with key
presence: some entry for `a` exists and contains `b`. -/
def memEdge (m : List (String × List String)) (a b : String) : Prop :=
  ∃ s, lookupKey m a = some s ∧ b ∈ s

instance (m : List (String × List String)) (a b : String) :
    Decidable (memEdge m a b) := by
  unfold memEdge
  cases lookupKey m a with
  | none => exact .isFalse (by simp)
  | some s => exact decidable_of_iff (b ∈ s) (by simp)

/-- The `ClassInfo` dataclass of `project_structure.py` (the `extends`
attribute is `extendsName` here; `extends` is a Lean keyword). -/
structure ClassInfo where
  name : String
  full_name : String
  package : String
  type : String
  extendsName : Option String
  implements : List String
  methods : List String
  fields : List String
  dependencies : List String
  dependents : List String
deriving DecidableEq, Repr

/-- Model of `ProjectStructure.classes`: the `full_name → ClassInfo` dictionary, as an
insertion-ordered association list. -/
def ProjectClasses := List (String × ClassInfo)

/-- Key membership `k in self.classes`. -/
def containsClass (classes : ProjectClasses) (k : String) : Bool :=
  match classes with
  | [] => false
  | (k', _) :: rest => if k' = k then true else containsClass rest k

/-- Model of `ProjectStructure._resolve_class_name`: an already-qualified name is
returned as is; otherwise try the current package, then `java.lang`, and
fall back to the bare name. -/
def resolveClassName (classes : ProjectClasses) (class_name current_package : String) :
    String :=
  if class_name.data.contains '.' then class_name
  else
    let full_name :=
      if current_package ≠ "" then current_package ++ "." ++ class_name else class_name
    if containsClass classes full_name then full_name
    else
      let java_lang_name := "java.lang." ++ class_name
      if containsClass classes java_lang_name then java_lang_name
      else class_name

/-- Inner loop of `build_dependency_graph`: add the resolvable
dependencies of one class to the graph. -/
def addClassDependencies (classes : ProjectClasses) (g : DependencyGraph)
    (class_info : ClassInfo) : DependencyGraph :=
  class_info.dependencies.foldl
    (fun g dep =>
      let resolved_dep := resolveClassName classes dep class_info.package
      if containsClass classes resolved_dep then
        addDependency g class_info.full_name resolved_dep
      else g)
    g

/-- Model of `ProjectStructure.build_dependency_graph`: rebuild the graph from scratch
from the dependency list of every class. -/
def buildDependencyGraph (classes : ProjectClasses) : DependencyGraph :=
  classes.foldl (fun g p => addClassDependencies classes g p.2) emptyDependencyGraph

/-! ## `find_circular_dependencies` (`src/models/project_structure.py`)

The Python `dfs` closure mutates two outer variables (`visited`, `cycles`)
and copies `path` on every recursive call; that state is threaded explicitly
here.  The recursion is given fuel and returns `none` when the fuel runs out,
so a `some` result is exactly the value the Python recursion computes. -/

/-- The state shared by all `dfs` calls: the global visited set and the list
of reported cycles. -/
structure DfsState where
  visited : List String
  cycles : List (List String)
deriving DecidableEq, Repr

/-- Model of `path[path.index(node):] + [node]`: the reported cycle slice. -/
def cycleSlice (path : List String) (node : String) : List String :=
  path.drop (path.indexOf node) ++ [node]

/-- The `dfs` closure of `find_circular_dependencies`. -/
def dfsVisit (g : DependencyGraph) : Nat → String → List String → DfsState →
    Option DfsState
  | 0, _, _, _ => none
  | Nat.succ fuel, node, path, st =>
    if node ∈ path then
      some { st with cycles := st.cycles ++ [cycleSlice path node] }
    else if node ∈ st.visited then
      some st
    else
      (getDependencies g node).foldlM
        (fun s n => dfsVisit g fuel n (path ++ [node]) s)
        { st with visited := st.visited ++ [node] }

/-- Model of `ProjectStructure.find_circular_dependencies`: run `dfs` from every not
yet visited class, in class-dictionary (insertion) order, and collect the
reported cycles. -/
def findCircularDependencies (classKeys : List String) (g : DependencyGraph)
    (fuel : Nat) : Option (List (List String)) :=
  (classKeys.foldlM
      (fun st k => if k ∈ st.visited then some st else dfsVisit g fuel k [] st)
      ⟨[], []⟩).map DfsState.cycles

/-! ## `Config` (`src/src/utils/config.py`)

Python floats are modelled by `PyFloat`: exact rationals plus `nan` and the
two infinities, with IEEE comparison semantics (every ordered comparison
involving `nan` is false).  The code only ever compares floats, so this is
an exact model of the behaviour the claims are about. -/

/-- A Python float value. -/
inductive PyFloat where
  | num (val : ℚ)
  | nan
  | inf
  | ninf
deriving DecidableEq, Repr

/-- IEEE `<=` on floats: false whenever either side is `nan`. -/
def pfLe : PyFloat → PyFloat → Bool
  | .nan, _ => false
  | _, .nan => false
  | .ninf, _ => true
  | _, .ninf => false
  | _, .inf => true
  | .inf, _ => false
  | .num a, .num b => a ≤ b

/-- IEEE `<` on floats: false whenever either side is `nan`. -/
def pfLt : PyFloat → PyFloat → Bool
  | .nan, _ => false
  | _, .nan => false
  | .ninf, .ninf => false
  | .ninf, _ => true
  | _, .ninf => false
  | .inf, _ => false
  | _, .inf => true
  | .num a, .num b => a < b

/-- The `Config` dataclass fields (ignoring `ignore_patterns`/`ignore_dirs`
contents, which validation never touches but are kept for shape). -/
structure PyConfig where
  openai_api_key : String
  openai_model : String
  openai_base_url : Option String
  temperature : PyFloat
  max_tokens : Int
  max_workers : Option Int
  batch_size : Int
  max_concurrent_requests : Int
  request_timeout : PyFloat
  max_retries : Int
  file_suffix : String
  encoding : String
  max_file_size_mb : PyFloat
  skip_comments : Bool
  generate_diagrams : Bool
  use_javadoc : Bool
  add_inline_comments : Bool
  include_file_comments : Bool
  include_method_comments : Bool
  include_class_comments : Bool
  ignore_patterns : List String
  ignore_dirs : List String
  diagram_format : String
  max_classes_in_diagram : Int
deriving DecidableEq, Repr

/-- The environment variables `_load_from_env` consults.  `some` models a
set, truthy value; for the two numeric ones it additionally means `int(...)`
parsed (a `ValueError` is swallowed by the code, i.e. `none`). -/
structure EnvVars where
  openai_api_key : Option String
  openai_model : Option String
  openai_base_url : Option String
  max_workers : Option Int
  batch_size : Option Int
deriving DecidableEq, Repr

/-- Model of `Config._load_from_env`. -/
def loadFromEnv (c : PyConfig) (env : EnvVars) : PyConfig :=
  let c :=
    if c.openai_api_key = "" then
      { c with openai_api_key := env.openai_api_key.getD "" }
    else c
  let c := match env.openai_model with
    | some m => { c with openai_model := m }
    | none => c
  let c := match env.openai_base_url with
    | some u => { c with openai_base_url := some u }
    | none => c
  let c := match env.max_workers with
    | some w => { c with max_workers := some w }
    | none => c
  match env.batch_size with
  | some b => { c with batch_size := b }
  | none => c

/-- First step of `_validate_settings`:
`if self.max_workers and self.max_workers > 20: self.max_workers = 20`
(`0` and `None` are falsy, so they skip the clamp). -/
def vWorkers (c : PyConfig) : PyConfig :=
  match c.max_workers with
  | some w => if w ≠ 0 ∧ w > 20 then { c with max_workers := some 20 } else c
  | none => c

/-- Model of `if self.batch_size > 50: self.batch_size = 50`. -/
def vBatch (c : PyConfig) : PyConfig :=
  if c.batch_size > 50 then { c with batch_size := 50 } else c

/-- Model of `if self.max_concurrent_requests > 50: self.max_concurrent_requests = 50`. -/
def vConc (c : PyConfig) : PyConfig :=
  if c.max_concurrent_requests > 50 then { c with max_concurrent_requests := 50 } else c

/-- Model of `if not 0.0 <= self.temperature <= 2.0: self.temperature = 0.3`
(the chained comparison is a conjunction, false for `nan`). -/
def vTemp (c : PyConfig) : PyConfig :=
  if !(pfLe (.num 0) c.temperature && pfLe c.temperature (.num 2)) then
    { c with temperature := .num (3 / 10) }
  else c

/-- Model of `if self.max_file_size_mb <= 0: self.max_file_size_mb = 5.0`
(false for `nan`, which is therefore kept). -/
def vFileSize (c : PyConfig) : PyConfig :=
  if pfLe c.max_file_size_mb (.num 0) then { c with max_file_size_mb := .num 5 } else c

/-- Model of `Config._validate_settings`: the four clamps in source order. -/
def validateSettings (c : PyConfig) : PyConfig :=
  vFileSize (vTemp (vConc (vBatch (vWorkers c))))

/-- Model of `Config.__post_init__`: load from the environment, then validate. -/
def postInit (c : PyConfig) (env : EnvVars) : PyConfig :=
  validateSettings (loadFromEnv c env)

/-! ## `JavaParser.parse_file` (`src/src/parser/java_parser.py`)

`javalang` is the external black-box parser; its outcome is a parameter
(`Except` models raising).  `_parse_class` is the adapter that normalises a
loosely-typed `javalang` type-declaration node into a `ParsedClass`; a node
is modelled as its kind tag together with the `ParsedClass` the adapter
produces for it, which lets `_extract_classes` keep its real structure
(filter the supported kinds, adapt each).  Inner classes are carried by the
adapter output in the source; no claim touches them and the `inner_classes`
field is omitted (Lean structures are non-recursive). -/

/-- The `ParsedField` dataclass. -/
structure ParsedField where
  name : String
  type : String
  visibility : String
  is_static : Bool
  is_final : Bool
  initial_value : Option String
  documentation : Option String
  line_number : Int
deriving DecidableEq, Repr

/-- The `ParsedMethod` dataclass. -/
structure ParsedMethod where
  name : String
  visibility : String
  return_type : String
  parameters : List (String × String)
  throws : List String
  is_static : Bool
  is_abstract : Bool
  documentation : Option String
  line_number : Int
  body : Option String
deriving DecidableEq, Repr

/-- The `ParsedClass` dataclass (without the recursive `inner_classes`
field; `extends` is a Lean keyword and is `extendsName` here). -/
structure ParsedClass where
  name : String
  type : String
  visibility : String
  extendsName : Option String
  implements : List String
  fields : List ParsedField
  methods : List ParsedMethod
  documentation : Option String
  line_number : Int
deriving DecidableEq, Repr

/-- The kinds of `javalang.tree.TypeDeclaration` nodes
(`AnnotationDeclaration` is the unsupported `other` case). -/
inductive JTypeDeclKind where
  | classDecl
  | interfaceDecl
  | enumDecl
  | other
deriving DecidableEq, Repr

/-- A type-declaration node of the external parse tree: its kind and the
`ParsedClass` the `_parse_class` adapter yields for it. -/
structure JTypeDecl where
  kind : JTypeDeclKind
  parsed : ParsedClass
deriving DecidableEq, Repr

/-- An `Import` node (`path`, `static`, `wildcard`). -/
structure JImport where
  path : String
  static : Bool
  wildcard : Bool
deriving DecidableEq, Repr

/-- A `javalang.tree.CompilationUnit`: optional package name, imports, and
the type declarations `tree.filter(TypeDeclaration)` yields. -/
structure JCompilationUnit where
  package : Option String
  imports : List JImport
  typeDecls : List JTypeDecl
deriving DecidableEq, Repr

/-- Model of `JavaParser._format_import`. -/
def formatImport (imp : JImport) : String :=
  let p := imp.path
  let p := if imp.static then "static " ++ p else p
  if imp.wildcard then p ++ ".*" else p

/-- Model of `JavaParser._extract_classes`: keep the class/interface/enum
declarations, adapting each via `_parse_class`. -/
def extractClasses (tree : JCompilationUnit) : List ParsedClass :=
  tree.typeDecls.filterMap fun node =>
    match node.kind with
    | .other => none
    | _ => some node.parsed

/-- The `ParsedFile` dataclass (the raw `tree` back-reference to the
external AST object is not carried). -/
structure ParsedFile where
  file_path : String
  package_name : String
  imports : List String
  classes : List ParsedClass
  source_code : String
deriving DecidableEq, Repr

/-- Model of `JavaParser.parse_file`: read the file, run the external parser and
build the `ParsedFile`.  The surrounding `try`/`except` logs the error and
then `raise`s it again, so any failure — of reading or of the external
parser — propagates to the caller unchanged. -/
def parseFile (readResult : Except String String)
    (jparse : String → Except String JCompilationUnit)
    (file_path : String) : Except String ParsedFile := do
  let source_code ← readResult
  let tree ← jparse source_code
  let package_name := match tree.package with
    | some n => n
    | none => ""
  pure { file_path := file_path
         package_name := package_name
         imports := tree.imports.map formatImport
         classes := extractClasses tree
         source_code := source_code }

/-! ## Concrete instances used by witnesses and counterexamples -/

/-- Two source lines, the smallest file the patching examples need. -/
def twoLines : List String := ["a", "b"]

/-- An inline task whose insert line (5) is past the end of `twoLines`. -/
def tInlineOOR : CommentTask := ⟨"field", "p", 5, "", true, 50⟩

/-- A block task whose insert line (7) is past the end of `twoLines`. -/
def tBlockPastEnd : CommentTask := ⟨"file", "p", 7, "", false, 150⟩

/-- An inline task at line 0 — ties with `tBlockTie`. -/
def tInlineTie : CommentTask := ⟨"field", "p1", 0, "", true, 50⟩

/-- A block task at line 0 — ties with `tInlineTie`. -/
def tBlockTie : CommentTask := ⟨"class", "p2", 0, "", false, 200⟩

/-- A block task at line 0 with a distinct line from `tKey1`. -/
def tKey0 : CommentTask := ⟨"class", "pa", 0, "", false, 200⟩

/-- A block task at line 1 with a distinct line from `tKey0`. -/
def tKey1 : CommentTask := ⟨"method", "pb", 1, " ", false, 180⟩

/-- A class-level task, used to feed `_format_comment`. -/
def tClassFmt : CommentTask := ⟨"class", "p", 1, "", false, 200⟩

/-- Default planner configuration: every comment kind enabled (the
dataclass defaults of `Config`). -/
def cfgAllOn : PlanConfig := ⟨true, true, true, true, true⟩

/-- An undocumented, non-constructor method `bar` at line 4. -/
def mUndocBar : PlannerMethod := ⟨"bar", "public", "void", [], [], false, false, false, 4⟩

/-- A documented method `baz` at line 6. -/
def mDocBaz : PlannerMethod := ⟨"baz", "public", "void", [], [], false, false, true, 6⟩

/-- A documented field `total` at line 5. -/
def fldDocTotal : PlannerField := ⟨"total", "int", "private", false, false, true, 5⟩

/-- A class `Foo` that already has documentation and owns the undocumented
method `bar`. -/
def clsDocFoo : PlannerClass := ⟨"Foo", "class", "public", none, [], [mUndocBar], [], true, 3⟩

/-- The file owning `clsDocFoo`. -/
def fileFoo : PlannerFile := ⟨"com.x", [], [clsDocFoo]⟩

/-- The source lines of `fileFoo`: an existing file comment, the package
line, the class and its method. -/
def linesFoo : List String :=
  ["/** existing file doc */", "package com.x;", "public class Foo \x7b",
   "  public void bar() \x7b\x7d", "\x7d"]

/-- A class whose own field type mentions the class itself (a linked-list
node), producing the dependency entry `"Node"`. -/
def selfClassInfo : ClassInfo :=
  ⟨"Node", "p.Node", "p", "class", none, [], [], ["next"], ["Node"], []⟩

/-- A one-class project registry containing only `selfClassInfo`. -/
def selfProject : ProjectClasses := [("p.Node", selfClassInfo)]

/-- Build a graph from a sequence of `add_dependency` calls on a fresh
`DependencyGraph`. -/
def graphOfAdds (ops : List (String × String)) : DependencyGraph :=
  ops.foldl (fun g p => addDependency g p.1 p.2) emptyDependencyGraph

/-- The 3-node cycle A→B→C→A. -/
def cycleGraphABC : DependencyGraph :=
  graphOfAdds [("A", "B"), ("B", "C"), ("C", "A")]

/-- All six iteration orders of the class dictionary `{A, B, C}`. -/
def threeNodeOrders : List (List String) :=
  [["A", "B", "C"], ["A", "C", "B"], ["B", "A", "C"],
   ["B", "C", "A"], ["C", "A", "B"], ["C", "B", "A"]]

/-- An environment with none of the consulted variables set. -/
def envUnset : EnvVars := ⟨none, none, none, none, none⟩

/-- A `Config` constructor call passing `nan` for `max_file_size_mb`
(all other arguments at their dataclass defaults, except `temperature = 1.0`
to keep the example focused on the file-size field). -/
def cfgNan : PyConfig :=
  ⟨"", "gpt-4o-mini", none, .num 1, 1000, none, 10, 20, .num 60, 3,
   "_commented", "utf-8", .nan, false, true, true, true, true, true, true,
   [], [], "png", 50⟩

/-- A `Config(...)` call with ordinary arguments (`max_file_size_mb = 5.0`). -/
def cfgOk : PyConfig :=
  ⟨"", "gpt-4o-mini", none, .num 1, 1000, some 4, 10, 20, .num 60, 3,
   "_commented", "utf-8", .num 5, false, true, true, true, true, true, true,
   [], [], "png", 50⟩

/-! ## Theorems -/

theorem sliceInsertIndex_le (n : Nat) (i : Int) : sliceInsertIndex n i ≤ n := by
  unfold sliceInsertIndex
  split
  · omega
  · exact min_le_right _ _

theorem length_sliceInsert (lines : List String) (i : Int) (new : List String) :
    (sliceInsert lines i new).length = lines.length + new.length := by
  unfold sliceInsert
  have h := sliceInsertIndex_le lines.length i
  simp only [List.length_append, List.length_take, List.length_drop]
  omega

theorem length_applyTask (lines : List String) (p : CommentTask × String) :
    (applyTask lines p).length = lines.length + blockCommentLineCount p := by
  unfold applyTask blockCommentLineCount
  by_cases hi : p.1.is_inline
  · simp only [hi, if_true]
    split
    · simp
    · simp
  · simp only [hi, if_false, Bool.false_eq_true]
    rw [length_sliceInsert, List.length_map]

theorem length_foldl_applyTask (ps : List (CommentTask × String)) (lines : List String) :
    (ps.foldl applyTask lines).length
      = lines.length + (ps.map blockCommentLineCount).sum := by
  induction ps generalizing lines with
  | nil => simp
  | cons p ps ih =>
    rw [List.foldl_cons, ih, length_applyTask, List.map_cons, List.sum_cons]
    omega

/-- C1: for every list of source lines and every list of completed
`(task, formatted text)` pairs, the line array produced by
`_insert_comments` has length equal to the input length plus, for each block
(non-inline) task, the number of lines of its formatted comment; inline
tasks contribute zero lines. -/
theorem c1_patched_line_count (source_lines : List String)
    (completed : List (CommentTask × String)) :
    (insertCommentsLines source_lines completed).length
      = source_lines.length + (completed.map blockCommentLineCount).sum := by
  unfold insertCommentsLines
  rw [length_foldl_applyTask]
  have hp : List.Perm ((sortCompleted completed).map blockCommentLineCount)
      (completed.map blockCommentLineCount) :=
    (List.perm_insertionSort taskGE completed).map _
  rw [hp.sum_eq]

/-- C9: `_insert_comments` is total over every integer insert line.  An
inline task whose line is out of range `[0, len)` is a silent no-op, while a
block task whose line is at or past the end of the file still splices its
comment lines in, appended at the end of the line array. -/
theorem c9_out_of_range_tasks (lines : List String) (t : CommentTask) (text : String) :
    (t.is_inline = true →
      (t.insert_line < 0 ∨ (lines.length : Int) ≤ t.insert_line) →
      applyTask lines (t, text) = lines)
    ∧ (t.is_inline = false →
      (lines.length : Int) ≤ t.insert_line →
      applyTask lines (t, text)
        = lines ++ (pySplitLines text).map (fun l => t.indent ++ l)) := by
  constructor
  · intro hinl hoor
    unfold applyTask
    simp only [hinl, if_true]
    rw [if_neg]
    rintro ⟨h0, hl⟩
    omega
  · intro hinl hge
    unfold applyTask
    simp only [hinl, Bool.false_eq_true, if_false]
    have h0 : ¬ t.insert_line < 0 := by omega
    simp only [sliceInsert, sliceInsertIndex, if_neg h0]
    have hmin : min t.insert_line.toNat lines.length = lines.length := by omega
    rw [hmin, List.take_length, List.drop_length, List.append_nil]

/-- Witness for C9 at concrete inputs: the inline task at line 5 of a
2-line file changes nothing; the block task at line 7 appends its two
comment lines at the end. -/
theorem c9_out_of_range_tasks_witness :
    (tInlineOOR.is_inline = true
      ∧ (tInlineOOR.insert_line < 0 ∨ ((twoLines.length : Int) ≤ tInlineOOR.insert_line))
      ∧ applyTask twoLines (tInlineOOR, "// c") = twoLines)
    ∧ (tBlockPastEnd.is_inline = false
      ∧ ((twoLines.length : Int) ≤ tBlockPastEnd.insert_line)
      ∧ applyTask twoLines (tBlockPastEnd, "x\ny")
          = twoLines ++ (pySplitLines "x\ny").map (fun l => tBlockPastEnd.indent ++ l)) :=
  ⟨⟨by decide, by decide,
      (c9_out_of_range_tasks twoLines tInlineOOR "// c").1 (by decide) (by decide)⟩,
   ⟨by decide, by decide,
      (c9_out_of_range_tasks twoLines tBlockPastEnd "x\ny").2 (by decide) (by decide)⟩⟩

/-- C2 counterexample: an inline task and a block task that share insert
line 0.  The two arrival orders of the same pair multiset yield different
patched files, because the stable Python sort keeps ties in arrival order (it
does not order inline before block). -/
theorem c2_counterexample :
    List.Perm [(tInlineTie, "// c"), (tBlockTie, "/* x */")]
      [(tBlockTie, "/* x */"), (tInlineTie, "// c")]
    ∧ insertComments twoLines [(tInlineTie, "// c"), (tBlockTie, "/* x */")]
      ≠ insertComments twoLines [(tBlockTie, "/* x */"), (tInlineTie, "// c")] := by
  constructor
  · decide
  · decide


theorem sorted_taskGT_of_nodup (l : List (CommentTask × String))
    (hnodup : (l.map (fun p => p.1.insert_line)).Nodup) :
    (sortCompleted l).Sorted taskGT := by
  have hs : (sortCompleted l).Sorted taskGE := List.sorted_insertionSort taskGE l
  have hmap : List.Perm ((sortCompleted l).map (fun p => p.1.insert_line))
      (l.map (fun p => p.1.insert_line)) :=
    (List.perm_insertionSort taskGE l).map _
  have hnd : ((sortCompleted l).map (fun p => p.1.insert_line)).Nodup :=
    hmap.symm.nodup hnodup
  have hne : (sortCompleted l).Pairwise
      (fun a b => a.1.insert_line ≠ b.1.insert_line) :=
    List.pairwise_map.mp hnd
  exact (hs.and hne).imp fun h => lt_of_le_of_ne h.1 h.2.symm

/-- C2 (amended): the output of `_insert_comments` is invariant under the
arrival order of the completed pairs provided their insert lines are
pairwise distinct; with a shared insert line the stable sort keeps arrival
order, so the result can depend on it (see the counterexample). -/
theorem c2_order_invariance (lines : List String)
    (l₁ l₂ : List (CommentTask × String))
    (hperm : List.Perm l₁ l₂)
    (hnodup : (l₁.map (fun p => p.1.insert_line)).Nodup) :
    insertComments lines l₁ = insertComments lines l₂ := by
  have hnodup₂ : (l₂.map (fun p => p.1.insert_line)).Nodup :=
    (hperm.map _).nodup hnodup
  have hp : List.Perm (sortCompleted l₁) (sortCompleted l₂) :=
    ((List.perm_insertionSort taskGE l₁).trans hperm).trans
      (List.perm_insertionSort taskGE l₂).symm
  have hsorted : sortCompleted l₁ = sortCompleted l₂ :=
    List.eq_of_perm_of_sorted hp (sorted_taskGT_of_nodup l₁ hnodup)
      (sorted_taskGT_of_nodup l₂ hnodup₂)
  unfold insertComments insertCommentsLines
  rw [hsorted]

/-- Witness for C2 at concrete inputs: two block tasks at distinct lines 0
and 1, in both arrival orders, patch a 2-line file identically. -/
theorem c2_order_invariance_witness :
    List.Perm [(tKey0, "x"), (tKey1, "y")] [(tKey1, "y"), (tKey0, "x")]
    ∧ ([(tKey0, "x"), (tKey1, "y")].map (fun p => p.1.insert_line)).Nodup
    ∧ insertComments twoLines [(tKey0, "x"), (tKey1, "y")]
        = insertComments twoLines [(tKey1, "y"), (tKey0, "x")] :=
  ⟨by decide, by decide,
    c2_order_invariance twoLines _ _ (by decide) (by decide)⟩

/-- C8 counterexample: a class answer that already forms a `/** ... */`
block is wrapped again by `_format_comment` instead of being left as is. -/
theorem c8_counterexample :
    pyStartsWith "/** Already documented. */" "/*" = true
    ∧ formatComment tClassFmt "/** Already documented. */"
        ≠ "/** Already documented. */"
    ∧ formatComment tClassFmt "/** Already documented. */"
        = "/**\n * /** Already documented. */\n * \n * @author CodeComprehender\n */" := by
  refine ⟨by decide, by decide, by decide⟩

/-- C8 (amended): `_format_comment` wraps file, class and method answers in
a `/** ... */` block unconditionally (even when the answer is already
wrapped), and prefixes a field answer with `// ` exactly when it does not
already start with `//`. -/
theorem c8_format_comment (prompt : String) (line : Int) (ind : String)
    (inl : Bool) (mt : Int) (raw : String) :
    formatComment ⟨"file", prompt, line, ind, inl, mt⟩ raw
      = "/**\n * " ++ raw ++ "\n * \n * @author CodeComprehender\n */"
    ∧ formatComment ⟨"class", prompt, line, ind, inl, mt⟩ raw
      = "/**\n * " ++ raw ++ "\n * \n * @author CodeComprehender\n */"
    ∧ formatComment ⟨"method", prompt, line, ind, inl, mt⟩ raw
      = "/**\n * " ++ raw ++ "\n */"
    ∧ formatComment ⟨"field", prompt, line, ind, inl, mt⟩ raw
      = (if pyStartsWith raw "//" then raw else "// " ++ raw) := by
  refine ⟨rfl, rfl, rfl, rfl⟩

/-- C4 counterexample: under the default configuration, class `Foo` carries
existing documentation while its method `bar` is undocumented and not a
constructor — yet planning yields no task at all, so the children of the documented
class are not independently eligible. -/
theorem c4_counterexample :
    clsDocFoo.has_javadoc = true
    ∧ clsDocFoo.methods = [mUndocBar]
    ∧ mUndocBar.is_constructor = false
    ∧ mUndocBar.has_javadoc = false
    ∧ cfgAllOn.include_method_comments = true
    ∧ planComments cfgAllOn fileFoo linesFoo "Foo.java" = [] := by
  refine ⟨rfl, rfl, rfl, rfl, rfl, by decide⟩

/-- C4 (amended): planning never queues a task for a declaration that
carries existing documentation — a documented class contributes no tasks at
all (so its children are *not* independently eligible: the method and field
loops only run inside the branch of an undocumented class), a documented or
constructor method contributes none, a documented (or static-final or
obvious-named) field contributes none, and a detected existing file comment
suppresses the file task. -/
theorem c4_no_task_for_documented (cfg : PlanConfig) (f : PlannerFile)
    (source_lines : List String) (fileName : String) (cls : PlannerClass)
    (m : PlannerMethod) (fld : PlannerField) :
    (cls.has_javadoc = true → classTasks cfg f source_lines cls = [])
    ∧ (m.has_javadoc = true → methodTask cls source_lines m = none)
    ∧ (fld.has_javadoc = true → fieldTask cls fld = none)
    ∧ (hasFileComment source_lines = true →
        planComments cfg f source_lines fileName
          = f.classes.flatMap (classTasks cfg f source_lines)) := by
  refine ⟨?_, ?_, ?_, ?_⟩
  · intro h
    unfold classTasks
    rw [h]
    simp
  · intro h
    unfold methodTask
    rw [h]
    simp
  · intro h
    unfold fieldTask
    rw [h]
    simp
  · intro h
    unfold planComments
    rw [h]
    simp

/-- Witness for C4 at concrete inputs: the documented class, a documented
method, a documented field and a file with an existing top comment each
yield no task. -/
theorem c4_no_task_for_documented_witness :
    (clsDocFoo.has_javadoc = true
      ∧ classTasks cfgAllOn fileFoo linesFoo clsDocFoo = [])
    ∧ (mDocBaz.has_javadoc = true
      ∧ methodTask clsDocFoo linesFoo mDocBaz = none)
    ∧ (fldDocTotal.has_javadoc = true
      ∧ fieldTask clsDocFoo fldDocTotal = none)
    ∧ (hasFileComment linesFoo = true
      ∧ planComments cfgAllOn fileFoo linesFoo "Foo.java"
          = fileFoo.classes.flatMap (classTasks cfgAllOn fileFoo linesFoo)) :=
  ⟨⟨rfl, (c4_no_task_for_documented cfgAllOn fileFoo linesFoo "Foo.java"
      clsDocFoo mDocBaz fldDocTotal).1 rfl⟩,
   ⟨rfl, (c4_no_task_for_documented cfgAllOn fileFoo linesFoo "Foo.java"
      clsDocFoo mDocBaz fldDocTotal).2.1 rfl⟩,
   ⟨rfl, (c4_no_task_for_documented cfgAllOn fileFoo linesFoo "Foo.java"
      clsDocFoo mDocBaz fldDocTotal).2.2.1 rfl⟩,
   ⟨by decide, (c4_no_task_for_documented cfgAllOn fileFoo linesFoo "Foo.java"
      clsDocFoo mDocBaz fldDocTotal).2.2.2 (by decide)⟩⟩

/-- C3 counterexample: when the external parser rejects the file text,
`parse_file` propagates the exception (the `except` branch logs and
re-raises); it does not return a zero-class result object. -/
theorem c3_counterexample :
    parseFile (Except.ok "public class Broken \x7b")
        (fun _ => Except.error "Syntax error at line 1") "Broken.java"
      = Except.error "Syntax error at line 1" := rfl

/-- C3 (amended): when the file reads successfully but the external parser
rejects its text, `parse_file` re-raises that same error to its caller (the
callers — `analyze_project_structure` and the per-file worker — catch it and
skip the file); no marker result object is produced by `parse_file`
itself. -/
theorem c3_parse_error_propagates (read : Except String String) (src : String)
    (jparse : String → Except String JCompilationUnit) (msg path : String)
    (hread : read = Except.ok src) (hj : jparse src = Except.error msg) :
    parseFile read jparse path = Except.error msg := by
  subst hread
  show (_ <$> jparse src) = Except.error msg
  rw [hj]
  rfl

/-- Witness for C3 at concrete inputs. -/
theorem c3_parse_error_propagates_witness :
    ((Except.ok "class A \x7b" : Except String String) = Except.ok "class A \x7b")
    ∧ ((fun _ : String => (Except.error "bad" : Except String JCompilationUnit)) "class A \x7b"
        = Except.error "bad")
    ∧ parseFile (Except.ok "class A \x7b")
        (fun _ => Except.error "bad") "A.java" = Except.error "bad" :=
  ⟨rfl, rfl,
    c3_parse_error_propagates (Except.ok "class A \x7b") "class A \x7b"
      (fun _ => Except.error "bad") "bad" "A.java" rfl rfl⟩

/-- C5 counterexample: a class whose own field type names the class itself
produces a self-edge in both the forward and the reverse map —
`build_dependency_graph` has no self-edge check. -/
theorem c5_counterexample :
    memEdge (buildDependencyGraph selfProject).edges "p.Node" "p.Node"
    ∧ memEdge (buildDependencyGraph selfProject).reverse_edges "p.Node" "p.Node" := by
  constructor
  · decide
  · decide

theorem mem_setAdd (s : List String) (x b : String) :
    b ∈ setAdd s x ↔ b ∈ s ∨ b = x := by
  unfold setAdd
  split
  · constructor
    · exact Or.inl
    · rintro (h | rfl) <;> assumption
  · simp

theorem memEdge_dictAddToSet (m : List (String × List String)) (k v a b : String) :
    memEdge (dictAddToSet m k v) a b ↔ memEdge m a b ∨ (a = k ∧ b = v) := by
  induction m with
  | nil =>
    by_cases h : k = a
    · subst h
      simp [dictAddToSet, memEdge, lookupKey, setAdd]
    · have h' : ¬ a = k := fun hh => h hh.symm
      simp [dictAddToSet, memEdge, lookupKey, h, h']
  | cons p rest ih =>
    obtain ⟨k', s⟩ := p
    by_cases hkk : k' = k
    · subst hkk
      by_cases hka : k' = a
      · subst hka
        simp [dictAddToSet, memEdge, lookupKey, mem_setAdd]
      · have hak : ¬ a = k' := fun hh => hka hh.symm
        simp [dictAddToSet, memEdge, lookupKey, hka, hak]
    · by_cases hka : k' = a
      · subst hka
        simp [dictAddToSet, memEdge, lookupKey, hkk]
      · have hih := ih
        simp only [memEdge] at hih
        simpa [dictAddToSet, hkk, memEdge, lookupKey, hka] using hih

theorem memEdge_addDependency_edges (g : DependencyGraph) (f t a b : String) :
    memEdge (addDependency g f t).edges a b
      ↔ memEdge g.edges a b ∨ (a = f ∧ b = t) :=
  memEdge_dictAddToSet g.edges f t a b

theorem memEdge_addDependency_reverse (g : DependencyGraph) (f t a b : String) :
    memEdge (addDependency g f t).reverse_edges a b
      ↔ memEdge g.reverse_edges a b ∨ (a = t ∧ b = f) :=
  memEdge_dictAddToSet g.reverse_edges t f a b

theorem addClassDependencies_target (classes : ProjectClasses) (ci : ClassInfo)
    (g : DependencyGraph)
    (hg : ∀ a b, memEdge g.edges a b → containsClass classes b = true) :
    ∀ a b, memEdge (addClassDependencies classes g ci).edges a b →
      containsClass classes b = true := by
  unfold addClassDependencies
  induction ci.dependencies generalizing g with
  | nil => exact hg
  | cons dep deps ih =>
    rw [List.foldl_cons]
    apply ih
    intro a b hmem
    by_cases hc : containsClass classes (resolveClassName classes dep ci.package) = true
    · rw [if_pos hc] at hmem
      rcases (memEdge_addDependency_edges g ci.full_name
          (resolveClassName classes dep ci.package) a b).mp hmem with h | ⟨-, rfl⟩
      · exact hg a b h
      · exact hc
    · rw [if_neg hc] at hmem
      exact hg a b hmem

/-- C5 (amended): unresolvable type names are indeed dropped — every edge
target of `build_dependency_graph` is a key of the class dictionary of the
project — but self-edges are *not* prevented: a class whose dependency
list resolves to its own name gets an edge to itself (see the
counterexample). -/
theorem c5_edge_targets_resolvable (classes : ProjectClasses) (a b : String)
    (h : memEdge (buildDependencyGraph classes).edges a b) :
    containsClass classes b = true := by
  unfold buildDependencyGraph at h
  revert h
  have aux : ∀ (l : List (String × ClassInfo)) (g : DependencyGraph),
      (∀ a b, memEdge g.edges a b → containsClass classes b = true) →
      ∀ a b, memEdge ((l.foldl (fun g p => addClassDependencies classes g p.2) g)).edges a b →
        containsClass classes b = true := by
    intro l
    induction l with
    | nil => intro g hg; exact hg
    | cons p l ih =>
      intro g hg
      rw [List.foldl_cons]
      exact ih _ (addClassDependencies_target classes p.2 g hg)
  intro h
  refine aux classes emptyDependencyGraph ?_ a b h
  rintro x y ⟨s, hs, -⟩
  cases hs

/-- Witness for C5 (amended) at the concrete one-class project: the target of the
self-edge is in the class set. -/
theorem c5_edge_targets_resolvable_witness :
    memEdge (buildDependencyGraph selfProject).edges "p.Node" "p.Node"
    ∧ containsClass selfProject "p.Node" = true :=
  ⟨by decide, c5_edge_targets_resolvable selfProject "p.Node" "p.Node" (by decide)⟩

/-- C6: after any sequence of `add_dependency` calls on a fresh
`DependencyGraph`, the forward and reverse maps are symmetric: `B` is
recorded under `A` in `edges` exactly when `A` is recorded under `B` in
`reverse_edges`. -/
theorem c6_graph_symmetry (ops : List (String × String)) (A B : String) :
    memEdge (graphOfAdds ops).edges A B
      ↔ memEdge (graphOfAdds ops).reverse_edges B A := by
  unfold graphOfAdds
  have aux : ∀ (l : List (String × String)) (g : DependencyGraph),
      (∀ a b, memEdge g.edges a b ↔ memEdge g.reverse_edges b a) →
      ∀ a b, memEdge ((l.foldl (fun g p => addDependency g p.1 p.2) g)).edges a b
        ↔ memEdge ((l.foldl (fun g p => addDependency g p.1 p.2) g)).reverse_edges b a := by
    intro l
    induction l with
    | nil => intro g hg; exact hg
    | cons p l ih =>
      intro g hg
      rw [List.foldl_cons]
      apply ih
      intro a b
      rw [memEdge_addDependency_edges, memEdge_addDependency_reverse, hg a b]
      tauto
  apply aux
  intro a b
  constructor <;> (rintro ⟨s, hs, -⟩; cases hs)

/-- C7: on the project whose dependency graph is exactly the cycle
A→B→C→A, `find_circular_dependencies` reports at least one cycle, and every
reported cycle contains all three classes, whichever of the six class
iteration orders (hence whichever start node) the DFS uses.  The fuel value
9 is enough: the run returns `some`, i.e. the Python recursion terminates
with exactly this result. -/
theorem c7_three_cycle_detected (order : List String)
    (h : order ∈ threeNodeOrders) :
    (findCircularDependencies order cycleGraphABC 9).isSome = true
    ∧ (findCircularDependencies order cycleGraphABC 9).getD [] ≠ []
    ∧ ∀ c ∈ (findCircularDependencies order cycleGraphABC 9).getD [],
        "A" ∈ c ∧ "B" ∈ c ∧ "C" ∈ c := by
  simp only [threeNodeOrders, List.mem_cons, List.not_mem_nil, or_false] at h
  rcases h with rfl | rfl | rfl | rfl | rfl | rfl <;> decide

/-- Witness for C7 at the order starting from A. -/
theorem c7_three_cycle_detected_witness :
    (["A", "B", "C"] ∈ threeNodeOrders)
    ∧ ((findCircularDependencies ["A", "B", "C"] cycleGraphABC 9).isSome = true
      ∧ (findCircularDependencies ["A", "B", "C"] cycleGraphABC 9).getD [] ≠ []
      ∧ ∀ c ∈ (findCircularDependencies ["A", "B", "C"] cycleGraphABC 9).getD [],
          "A" ∈ c ∧ "B" ∈ c ∧ "C" ∈ c) :=
  ⟨by decide, c7_three_cycle_detected ["A", "B", "C"] (by decide)⟩

/-- C10 counterexample: a `Config` call passing `nan` for `max_file_size_mb` survives
validation unchanged — `nan <= 0` is false, so the reset is skipped — and
the claimed invariant `max_file_size_mb > 0` fails on the constructed
configuration. -/
theorem c10_counterexample :
    (postInit cfgNan envUnset).max_file_size_mb = PyFloat.nan
    ∧ pfLt (PyFloat.num 0) (postInit cfgNan envUnset).max_file_size_mb = false := by
  constructor
  · decide
  · decide

theorem loadFromEnv_max_file_size_mb (c : PyConfig) (env : EnvVars) :
    (loadFromEnv c env).max_file_size_mb = c.max_file_size_mb := by
  rcases env with ⟨ek, em, eu, ew, eb⟩
  unfold loadFromEnv
  cases em <;> cases eu <;> cases ew <;> cases eb <;> dsimp only <;> split <;> rfl

theorem vWorkers_preserves (c : PyConfig) :
    (vWorkers c).batch_size = c.batch_size
    ∧ (vWorkers c).max_concurrent_requests = c.max_concurrent_requests
    ∧ (vWorkers c).temperature = c.temperature
    ∧ (vWorkers c).max_file_size_mb = c.max_file_size_mb := by
  unfold vWorkers
  split
  · split <;> exact ⟨rfl, rfl, rfl, rfl⟩
  · exact ⟨rfl, rfl, rfl, rfl⟩

theorem vBatch_preserves (c : PyConfig) :
    (vBatch c).max_workers = c.max_workers
    ∧ (vBatch c).max_concurrent_requests = c.max_concurrent_requests
    ∧ (vBatch c).temperature = c.temperature
    ∧ (vBatch c).max_file_size_mb = c.max_file_size_mb := by
  unfold vBatch
  split <;> exact ⟨rfl, rfl, rfl, rfl⟩

theorem vConc_preserves (c : PyConfig) :
    (vConc c).max_workers = c.max_workers
    ∧ (vConc c).batch_size = c.batch_size
    ∧ (vConc c).temperature = c.temperature
    ∧ (vConc c).max_file_size_mb = c.max_file_size_mb := by
  unfold vConc
  split <;> exact ⟨rfl, rfl, rfl, rfl⟩

theorem vTemp_preserves (c : PyConfig) :
    (vTemp c).max_workers = c.max_workers
    ∧ (vTemp c).batch_size = c.batch_size
    ∧ (vTemp c).max_concurrent_requests = c.max_concurrent_requests
    ∧ (vTemp c).max_file_size_mb = c.max_file_size_mb := by
  unfold vTemp
  split <;> exact ⟨rfl, rfl, rfl, rfl⟩

theorem vFileSize_preserves (c : PyConfig) :
    (vFileSize c).max_workers = c.max_workers
    ∧ (vFileSize c).batch_size = c.batch_size
    ∧ (vFileSize c).max_concurrent_requests = c.max_concurrent_requests
    ∧ (vFileSize c).temperature = c.temperature := by
  unfold vFileSize
  split <;> exact ⟨rfl, rfl, rfl, rfl⟩

theorem vBatch_le (c : PyConfig) : (vBatch c).batch_size ≤ 50 := by
  unfold vBatch
  split
  · exact le_refl _
  · omega

theorem vConc_le (c : PyConfig) : (vConc c).max_concurrent_requests ≤ 50 := by
  unfold vConc
  split
  · exact le_refl _
  · omega

theorem vWorkers_le (c : PyConfig) :
    ∀ w, (vWorkers c).max_workers = some w → w ≤ 20 := by
  unfold vWorkers
  split
  · rename_i w' heq
    split
    · rename_i hw
      intro w h
      obtain rfl : (20 : Int) = w := by injection h
      exact le_refl _
    · rename_i hw
      intro w h
      rw [heq] at h
      obtain rfl : w' = w := by injection h
      omega
  · rename_i heq
    intro w h
    rw [heq] at h
    cases h

theorem vTemp_bounds (c : PyConfig) :
    pfLe (PyFloat.num 0) (vTemp c).temperature = true
    ∧ pfLe (vTemp c).temperature (PyFloat.num 2) = true := by
  unfold vTemp
  split
  · constructor
    · show pfLe (PyFloat.num 0) (PyFloat.num (3 / 10)) = true
      simp [pfLe]
      norm_num
    · show pfLe (PyFloat.num (3 / 10)) (PyFloat.num 2) = true
      simp [pfLe]
      norm_num
  · rename_i h
    simp only [Bool.not_eq_true', Bool.not_eq_false] at h
    exact ⟨((Bool.and_eq_true _ _).mp h).1, ((Bool.and_eq_true _ _).mp h).2⟩

theorem vFileSize_pos (c : PyConfig) (h : c.max_file_size_mb ≠ PyFloat.nan) :
    pfLt (PyFloat.num 0) (vFileSize c).max_file_size_mb = true := by
  unfold vFileSize
  split
  · show pfLt (PyFloat.num 0) (PyFloat.num 5) = true
    simp [pfLt]
  · rename_i h'
    rw [Bool.not_eq_true] at h'
    cases hm : c.max_file_size_mb with
    | nan => exact absurd hm h
    | ninf => rw [hm] at h'; simp [pfLe] at h'
    | inf => rfl
    | num q =>
      rw [hm] at h'
      simp only [pfLe, decide_eq_false_iff_not, not_le] at h'
      simp only [pfLt, decide_eq_true_eq]
      linarith

/-- C10 (amended): after `Config` construction the bounds hold —
`0.0 <= temperature <= 2.0` (out-of-range and `nan` inputs are reset to
`0.3`), `max_workers <= 20` when set, `batch_size <= 50`,
`max_concurrent_requests <= 50` — and `max_file_size_mb > 0` holds provided
the `max_file_size_mb` argument is not `nan`; a `nan` argument is kept as is
and violates the bound (see the counterexample). -/
theorem c10_config_bounds (c : PyConfig) (env : EnvVars)
    (hmfs : c.max_file_size_mb ≠ PyFloat.nan) :
    (pfLe (PyFloat.num 0) (postInit c env).temperature = true
      ∧ pfLe (postInit c env).temperature (PyFloat.num 2) = true)
    ∧ (∀ w, (postInit c env).max_workers = some w → w ≤ 20)
    ∧ (postInit c env).batch_size ≤ 50
    ∧ (postInit c env).max_concurrent_requests ≤ 50
    ∧ pfLt (PyFloat.num 0) (postInit c env).max_file_size_mb = true := by
  unfold postInit validateSettings
  refine ⟨?_, ?_, ?_, ?_, ?_⟩
  · rw [(vFileSize_preserves _).2.2.2]
    exact vTemp_bounds _
  · intro w h
    rw [(vFileSize_preserves _).1, (vTemp_preserves _).1, (vConc_preserves _).1,
      (vBatch_preserves _).1] at h
    exact vWorkers_le _ w h
  · rw [(vFileSize_preserves _).2.1, (vTemp_preserves _).2.1, (vConc_preserves _).2.1]
    exact vBatch_le _
  · rw [(vFileSize_preserves _).2.2.1, (vTemp_preserves _).2.2.1]
    exact vConc_le _
  · apply vFileSize_pos
    rw [(vTemp_preserves _).2.2.2, (vConc_preserves _).2.2.2,
      (vBatch_preserves _).2.2.2, (vWorkers_preserves _).2.2.2,
      loadFromEnv_max_file_size_mb]
    exact hmfs

/-- Witness for C10 at a concrete ordinary configuration. -/
theorem c10_config_bounds_witness :
    cfgOk.max_file_size_mb ≠ PyFloat.nan
    ∧ ((pfLe (PyFloat.num 0) (postInit cfgOk envUnset).temperature = true
        ∧ pfLe (postInit cfgOk envUnset).temperature (PyFloat.num 2) = true)
      ∧ (∀ w, (postInit cfgOk envUnset).max_workers = some w → w ≤ 20)
      ∧ (postInit cfgOk envUnset).batch_size ≤ 50
      ∧ (postInit cfgOk envUnset).max_concurrent_requests ≤ 50
      ∧ pfLt (PyFloat.num 0) (postInit cfgOk envUnset).max_file_size_mb = true) :=
  ⟨by decide, c10_config_bounds cfgOk envUnset (by decide)⟩
